import Mathlib

/-!
# Verification of DIMA-OntoToolkit against its specification

Shallow embedding of the parts of `dima_otk` (Python) that the claims
C1–C10 concern, together with theorems settling each claim.

Conventions used throughout:
* on-disk state (cache directory, ontology store files) is passed
  explicitly as a function from paths/keys to contents;
* fallible Python code is modelled with `Except`/`Option`;
* Python dicts that are iterated are modelled as association lists in
  insertion order (CPython dicts preserve insertion order);
* calls into external services or libraries whose value is irrelevant to
  a claim (the GPT client, the `difflib` similarity score) are taken as
  parameters, so the theorems quantify over every possible outcome.
-/

namespace DimaOTK

/-! ## JSON cache — `dima_otk/utils/cache.py`

A cache entry's payload is a JSON object; for the claims only its
key/value pairs and its Python truthiness (non-emptiness) matter, so a
payload is an association list. -/

abbrev Payload := List (String × String)

/-- Python truthiness of a `dict`: non-empty. -/
def payloadTruthy (p : Payload) : Bool := !p.isEmpty

/-- The cache directory on disk: `(cache_type, filename)` — i.e.
`output/<cache_type>/<filename>.json` — maps to the stored payload, or
`none` when no such file exists. -/
abbrev CacheDisk := String × String → Option Payload

/-- `load_json_cache(filename, cache_type)`: return the parsed file if it
exists, else `None`. -/
def load_json_cache (disk : CacheDisk) (filename cache_type : String) :
    Option Payload :=
  disk (cache_type, filename)

/-- `save_json_cache(filename, cache_type, dict_object)`: (over)write the
file at the cache path. -/
def save_json_cache (disk : CacheDisk) (filename cache_type : String)
    (dict_object : Payload) : CacheDisk :=
  fun k => if k = (cache_type, filename) then some dict_object else disk k

/-- Result of one `load_or_compute_cache` call: the returned payload, the
disk afterwards, and whether `compute_fn` was invoked. -/
structure CacheResult where
  result : Payload
  disk : CacheDisk
  computeInvoked : Bool

/-- `load_or_compute_cache(cache_key, cache_type, compute_fn, …)`:

```python
cached = load_json_cache(cache_key, cache_type)
if cached:
    return cached
else:
    result = compute_fn()
    save_json_cache(cache_key, cache_type, result)
    return result
```

Note the branch is on the *truthiness* of `cached` (`if cached:`), which
is `False` both when the file is missing (`None`) and when the stored
payload is an empty object. -/
def load_or_compute_cache (disk : CacheDisk) (cache_key cache_type : String)
    (compute_fn : Unit → Payload) : CacheResult :=
  match load_json_cache disk cache_key cache_type with
  | some cached =>
      if payloadTruthy cached then
        ⟨cached, disk, false⟩
      else
        let result := compute_fn ()
        ⟨result, save_json_cache disk cache_key cache_type result, true⟩
  | none =>
      let result := compute_fn ()
      ⟨result, save_json_cache disk cache_key cache_type result, true⟩

/-! ## Name binding of the `cache.py` module (claim C10)

`cache.py` executes, at import time, the imports
`import json`, `from pathlib import Path`, `from typing import Optional`
and then four `def` statements.  Executing a `def` statement evaluates
every annotation expression in its signature; an annotation naming an
unbound identifier raises `NameError` at module load. -/

inductive PyErr where
  | nameError (n : String)
  deriving DecidableEq, Repr

/-- Names bound in the module namespace of `dima_otk/utils/cache.py`
before the `def load_or_compute_cache` statement executes: the three
imports and the preceding module-level definitions. -/
def cacheModuleNames : List String :=
  ["json", "Path", "Optional",
   "defaultPath", "get_cache_path", "load_json_cache", "save_json_cache"]

/-- Python builtins consulted after the module globals. -/
def pythonBuiltinNames : List String :=
  ["str", "dict", "int", "float", "bool", "list", "tuple", "open", "print"]

/-- The identifiers evaluated by the annotations in the signature of
`load_or_compute_cache` (`cache_key: str`, `cache_type: str`,
`compute_fn: Callable[[], dict]`, `verbose_label: Optional[str]`,
return annotation `dict`), in evaluation order. -/
def annotationNames_load_or_compute_cache : List String :=
  ["str", "str", "Callable", "Optional", "str", "dict"]

/-- Name resolution in the module: globals, then builtins. -/
def resolvesInCacheModule (n : String) : Bool :=
  (cacheModuleNames ++ pythonBuiltinNames).contains n

/-- Executing the `def load_or_compute_cache` statement: evaluate each
annotation name in order; raise `NameError` at the first unresolvable
one, otherwise bind the function. -/
def define_load_or_compute_cache : Except PyErr Unit :=
  match annotationNames_load_or_compute_cache.find?
      (fun n => !resolvesInCacheModule n) with
  | some n => .error (.nameError n)
  | none => .ok ()

/-! ## RDF graphs and the cumulative stores —
`owl_influencemini_converter.py`, `owl_dima_converter.py`, `dima_otk.py`

An rdflib `Graph` is a *set* of triples, so it is modelled as a `Finset`
of (subject, predicate, object).  (Blank nodes, which rdflib relabels on
every parse, are outside this model: all triples here are ground.)  A
file's contents are modelled only as far as RDF parsing distinguishes
them: empty, a well-formed serialization of some graph, or malformed. -/

abbrev Triple := String × String × String

abbrev Graph := Finset Triple

/-- The `owl:imports` predicate. -/
def owlImports : String :=
  "http://www.w3.org/2002/07/owl#imports"

/-- `g.remove((None, OWL.imports, None))`: drop every triple whose
predicate is `owl:imports`. -/
def removeImports (g : Graph) : Graph :=
  g.filter (fun t => t.2.1 ≠ owlImports)

/-- File contents, as far as RDF parsing distinguishes them. -/
inductive Content where
  | emptyFile
  | rdf (g : Graph)
  | malformed
  deriving DecidableEq

/-- The file system: a path maps to its contents, or `none` if the file
does not exist. -/
abbrev FS := String → Option Content

/-- rdflib `parse`: a well-formed serialization yields its graph; an
empty or malformed file raises a parse error (`none`). -/
def parseRdf : Content → Option Graph
  | .rdf g => some g
  | _ => none

/-- Observable file-system side effects of a merge. -/
inductive FsOp where
  | writeFile (path : String)
  | rename (src dst : String)
  deriving DecidableEq, Repr

def FsOp.isRename : FsOp → Bool
  | .rename _ _ => true
  | _ => false

inductive MergeErr where
  | parseStoreFailed
  | parseFragmentFailed
  deriving DecidableEq, Repr

/-- Outcome of a merge call: the Python result (normal return or raised
exception), the file system afterwards, and the write/rename operations
performed, in order. -/
structure MergeResult where
  result : Except MergeErr Unit
  fs : FS
  ops : List FsOp

/-- `append_to_rdf_file(rdf_fragment_path, output_file, format)` from
`owl_influencemini_converter.py`:

```python
g_main = Graph()
if output_file.exists():
    g_main.parse(output_file, format=format)
g_new = Graph()
g_new.parse(rdf_fragment_path, format=format)
g_main += g_new
g_main.remove((None, OWL.imports, None))
g_main.serialize(destination=str(output_file), format=format)
```

The final `serialize` writes directly to `output_file`; a parse failure
raises before any write. -/
def append_to_rdf_file (fs : FS) (rdf_fragment_path output_file : String) :
    MergeResult :=
  match fs output_file with
  | some c =>
      match parseRdf c with
      | none => ⟨.error .parseStoreFailed, fs, []⟩
      | some g_main => appendParsedMain fs rdf_fragment_path output_file g_main
  | none => appendParsedMain fs rdf_fragment_path output_file ∅
where
  /-- Continuation after `g_main` has been obtained. -/
  appendParsedMain (fs : FS) (rdf_fragment_path output_file : String)
      (g_main : Graph) : MergeResult :=
    match (fs rdf_fragment_path).bind parseRdf with
    | none => ⟨.error .parseFragmentFailed, fs, []⟩
    | some g_new =>
        let merged := removeImports (g_main ∪ g_new)
        ⟨.ok (),
         fun p => if p = output_file then some (.rdf merged) else fs p,
         [.writeFile output_file]⟩

/-- `_append_flat(src, dest, fmt)` from `owl_dima_converter.py`: same
shape, except the destination is parsed only when it exists *and* has
non-zero size (`if dest.exists() and dest.stat().st_size`). -/
def appendFlat (fs : FS) (src dest : String) : MergeResult :=
  match fs dest with
  | some .emptyFile =>
      append_to_rdf_file.appendParsedMain fs src dest ∅
  | some c =>
      match parseRdf c with
      | none => ⟨.error .parseStoreFailed, fs, []⟩
      | some g_dest => append_to_rdf_file.appendParsedMain fs src dest g_dest
  | none => append_to_rdf_file.appendParsedMain fs src dest ∅

/-! ### Pipeline initialization — `dima_otk.py` -/

def dimaFullPath : String := "output/owl_dima/dima_full.owl"
def inflFullPath : String := "output/owl_influence-mini/influence-mini_full.owl"
def dimaTboxPath : String := "output/owl_dima/tbox.owl"
def inflTboxPath : String := "output/owl_influence-mini/tbox.owl"

/-- `clean_flat_ontology_files()`: `path.write_text("")` on both flat
merged OWL files ("Delete the contents of the flat merged OWL files to
prevent duplication across runs"). -/
def clean_flat_ontology_files (fs : FS) : FS :=
  fun p =>
    if p = dimaFullPath ∨ p = inflFullPath then some .emptyFile else fs p

/-- `influencemini_initialize_tbox()`: parse
`ontologies/influence-mini.ttl` and serialize the resulting graph both
to `tbox.owl` and to the flat store `influence-mini_full.owl`. -/
def influencemini_initialize_tbox (fs : FS) : Except MergeErr FS :=
  match (fs "ontologies/influence-mini.ttl").bind parseRdf with
  | none => .error .parseStoreFailed
  | some g =>
      .ok (fun p =>
        if p = inflFullPath then some (.rdf g)
        else if p = inflTboxPath then some (.rdf g)
        else fs p)

/-- `dima_initialize_tbox()`: `_ttl_to_owl` serializes the DIMA TBox to
`tbox.owl`, then `dima_full.owl` is created empty only if missing. -/
def dima_initialize_tbox (fs : FS) : Except MergeErr FS :=
  match (fs "ontologies/dima-bias.ttl").bind parseRdf with
  | none => .error .parseStoreFailed
  | some g =>
      let fs1 : FS :=
        fun p => if p = dimaTboxPath then some (.rdf g) else fs p
      .ok (if fs1 dimaFullPath = none then
             fun p => if p = dimaFullPath then some .emptyFile else fs1 p
           else fs1)

/-- `DimaOTK.__init__`: `clean_flat_ontology_files()` then
`influencemini_initialize_tbox()` then `dima_initialize_tbox()`. -/
def dimaOTK_init (fs : FS) : Except MergeErr FS :=
  match influencemini_initialize_tbox (clean_flat_ontology_files fs) with
  | .error e => .error e
  | .ok fs1 => dima_initialize_tbox fs1

/-! ## Component ID assignment — `bias_analysis/detect/te0132.py`

`component_map` is a CPython dict `{existing_text: id}`; dicts iterate
in insertion order, so it is an association list.  `counters` is a dict
`kind ↦ next index` whose four used keys are all initialized by the
caller; it is modelled as a total function.  The similarity test
`is_similar(text, known_text)` wraps
`SequenceMatcher(None, text.lower(), known_text.lower()).ratio() >= 0.95`
— a floating-point score computed by the `difflib` library; it enters
the model as the Boolean parameter `sim`, so every theorem below holds
for *every* possible similarity function, the difflib one included. -/

/-- CPython dict assignment `m[k] = v`: overwrite in place if the key is
present, else append at the end. -/
def dictInsert (m : List (String × String)) (k v : String) :
    List (String × String) :=
  if m.any (fun kv => kv.1 = k) then
    m.map (fun kv => if kv.1 = k then (k, v) else kv)
  else m ++ [(k, v)]

/-- Result of one `assign_component_id` call: the returned ID and the
mutated `component_map` and `counters`. -/
structure AssignResult where
  id : String
  component_map : List (String × String)
  counters : String → Nat

/-- `assign_component_id(text, component_map, prefix, counters)`:

```python
for known_text, cid in component_map.items():
    if is_similar(text, known_text):
        return cid
new_id = f"{prefix}_{counters[prefix]}"
counters[prefix] += 1
component_map[text] = new_id
return new_id
```

(The `prefix` parameter is called `pref` here; `prefix` is reserved in
Lean.) -/
def assign_component_id (sim : String → String → Bool) (text : String)
    (component_map : List (String × String)) (pref : String)
    (counters : String → Nat) : AssignResult :=
  match component_map.find? (fun kv => sim text kv.1) with
  | some kv => ⟨kv.2, component_map, counters⟩
  | none =>
      let new_id := pref ++ "_" ++ toString (counters pref)
      ⟨new_id, dictInsert component_map text new_id,
       fun k => if k = pref then counters pref + 1 else counters k⟩

/-- The loop
`for component in arg.get(section, []): component["id"] = assign_component_id(...)`
of `get_arguments_from_motifs`, applied to the texts of one section in
order: returns the assigned IDs in order plus the final map and
counters. -/
def assign_component_ids (sim : String → String → Bool)
    (texts : List String) (component_map : List (String × String))
    (pref : String) (counters : String → Nat) :
    List String × List (String × String) × (String → Nat) :=
  match texts with
  | [] => ([], component_map, counters)
  | t :: ts =>
      let r := assign_component_id sim t component_map pref counters
      let rest := assign_component_ids sim ts r.component_map pref r.counters
      (r.id :: rest.1, rest.2.1, rest.2.2)

/-! ## Argument extraction — `semantic_analysis/argument_extractor.py`
and `get_arguments_from_motifs` in `te0132.py` -/

/-- One argument object as returned by the external extraction: lists of
premise/development/conclusion texts. -/
structure ArgumentDict where
  premises : List String
  developments : List String
  conclusions : List String
  deriving DecidableEq, Repr

/-- Outcome of the external call inside `extract_arguments`: `call_gpt`
raised, returned unparsable content, or returned a parsable argument
list. -/
inductive ExtractOutcome where
  | raises
  | unparsable
  | parsed (args : List ArgumentDict)
  deriving DecidableEq, Repr

/-- `extract_arguments(text)`: the GPT call and the JSON parse sit in a
`try`/`except Exception` that logs and returns `[]`, so a raised call or
unparsable content yields the empty list and parsable content yields its
arguments. -/
def extract_arguments (outcome : ExtractOutcome) : List ArgumentDict :=
  match outcome with
  | .raises => []
  | .unparsable => []
  | .parsed args => args

/-- Names bound at module level of `te0132.py` (imports and `def`s), in
order of definition. -/
def te0132ModuleNames : List String :=
  ["Path", "SequenceMatcher", "List", "Dict",
   "extract_arguments", "load_or_compute_cache",
   "is_similar", "assign_component_id",
   "process_arguments", "get_arguments_from_motifs"]

/-- `process_arguments(text)` in `te0132.py`:

```python
def process_arguments(text):
    print(f"🔎 Processing motif {motif_id}: {text[:80]}...")
    return extract_arguments(text)
```

`motif_id` is neither a parameter of `process_arguments` nor a
module-level name of `te0132.py` (it is a local variable of
`get_arguments_from_motifs`, which is not an enclosing scope of
`process_arguments`), so evaluating the f-string raises
`NameError: name 'motif_id' is not defined` before `extract_arguments`
is ever reached. -/
def process_arguments (outcome : ExtractOutcome) :
    Except PyErr (List ArgumentDict) :=
  if te0132ModuleNames.contains "motif_id" then
    .ok (extract_arguments outcome)
  else
    .error (.nameError "motif_id")

/-- A motif handed to `get_arguments_from_motifs`. -/
structure Motif where
  id : String
  text : String
  deriving DecidableEq, Repr

/-- One argument after ID assignment: its minted `argument_id` and the
components of each section as (text, assigned id) pairs. -/
structure ProcessedArgument where
  argument_id : String
  premises : List (String × String)
  developments : List (String × String)
  conclusions : List (String × String)
  deriving DecidableEq, Repr

/-- One entry of the list returned by `get_arguments_from_motifs`. -/
structure MotifResult where
  motif_id : String
  text : String
  arguments : List ProcessedArgument
  deriving DecidableEq, Repr

/-- The deduplication maps and counters local to one
`get_arguments_from_motifs` run. -/
structure ArgState where
  premise_map : List (String × String)
  development_map : List (String × String)
  conclusion_map : List (String × String)
  counters : String → Nat

/-- The initial state of a `get_arguments_from_motifs` run:
`premise_map, development_map, conclusion_map = {}, {}, {}` and
`counters = {"premise": 0, "development": 0, "conclusion": 0,
"argument": 0}` (every key the run reads is initialized to 0). -/
def initialArgState : ArgState :=
  ⟨[], [], [], fun _ => 0⟩

/-- The body of `for arg in arguments:` — mint `argument_id` from the
argument counter, then run the section loop over premises, developments
and conclusions in order. -/
def processOneArg (sim : String → String → Bool) (a : ArgumentDict)
    (st : ArgState) : ProcessedArgument × ArgState :=
  let argument_id := "argument_" ++ toString (st.counters "argument")
  let counters1 := fun k =>
    if k = "argument" then st.counters "argument" + 1 else st.counters k
  let p := assign_component_ids sim a.premises st.premise_map "premise" counters1
  let d := assign_component_ids sim a.developments st.development_map
      "development" p.2.2
  let c := assign_component_ids sim a.conclusions st.conclusion_map
      "conclusion" d.2.2
  (⟨argument_id, a.premises.zip p.1, a.developments.zip d.1,
    a.conclusions.zip c.1⟩,
   ⟨p.2.1, d.2.1, c.2.1, c.2.2⟩)

/-- The loop over the arguments of one motif. -/
def processArgs (sim : String → String → Bool) (args : List ArgumentDict)
    (st : ArgState) : List ProcessedArgument × ArgState :=
  match args with
  | [] => ([], st)
  | a :: rest =>
      let r := processOneArg sim a st
      let rs := processArgs sim rest r.2
      (r.1 :: rs.1, rs.2)

/-- The arguments cache on disk, keyed by
`f"article_{article_id}-motif_{motif_id}"`; a stored payload is the
object `{"arguments": [...]}` (one key, hence always truthy, so a
present entry is always used). -/
abbrev ArgCacheDisk := String → Option (List ArgumentDict)

/-- `get_arguments_from_motifs(motifs, article)`: for each motif in
order, fetch the argument list through `load_or_compute_cache` (the
compute closure is `lambda: {"arguments": process_arguments(text)}`),
then assign IDs.  An exception raised by the compute closure propagates
out of `load_or_compute_cache` and aborts the whole call.  `outcome`
gives, per motif id, what the external extraction would return were it
reached. -/
def get_arguments_from_motifs (sim : String → String → Bool)
    (disk : ArgCacheDisk) (outcome : String → ExtractOutcome)
    (motifs : List Motif) (article_id : String) :
    Except PyErr (List MotifResult) :=
  go motifs initialArgState disk
where
  go : List Motif → ArgState → ArgCacheDisk →
      Except PyErr (List MotifResult)
  | [], _, _ => .ok []
  | m :: ms, st, disk =>
      let key := "article_" ++ article_id ++ "-motif_" ++ m.id
      match disk key with
      | some args =>
          let r := processArgs sim args st
          match go ms r.2 disk with
          | .error e => .error e
          | .ok rest => .ok (⟨m.id, m.text, r.1⟩ :: rest)
      | none =>
          match process_arguments (outcome m.id) with
          | .error e => .error e
          | .ok args =>
              let disk1 : ArgCacheDisk :=
                fun k => if k = key then some args else disk k
              let r := processArgs sim args st
              match go ms r.2 disk1 with
              | .error e => .error e
              | .ok rest => .ok (⟨m.id, m.text, r.1⟩ :: rest)

/-! ## Semantic-analysis → OWL conversion —
`owl_influencemini_converter.convert_semantic_analysis_article`

The function reads `article_processed_<id>.json` and creates ABox
individuals and relations.  Individual creation and every
`x.prop.append(y)` are modelled as one emitted triple
(subject individual, property, object); class membership is emitted as
an `rdf:type` triple.  `tboxHas` abstracts `getattr(tbox, name, …)` /
`tbox.__dict__.get(name)` — whether the (not-in-repo) ontology declares
a class or individual of that name. -/

structure ComponentJson where
  id : String
  text : String
  deriving DecidableEq, Repr

structure ArgumentJson where
  argument_id : String
  premises : List ComponentJson
  developments : List ComponentJson
  conclusions : List ComponentJson
  deriving DecidableEq, Repr

structure MotifJson where
  motif_id : String
  text : String
  arguments : List ArgumentJson
  deriving DecidableEq, Repr

structure QuoteJson where
  quote_id : String
  type : String
  text : String
  status : String
  maps_to_arg_components : List String
  attributed_to : List String
  mentions : List String
  deriving DecidableEq, Repr

structure AgentJson where
  agent_id : String
  deriving DecidableEq, Repr

/-- The processed-article JSON (`article_processed_<id>.json`). -/
structure ArticleJson where
  article_id : String
  headline : String
  motifs : List MotifJson
  narrated_agents : List AgentJson
  quotes : List QuoteJson
  deriving DecidableEq, Repr

/-- Dict lookup on an index built in insertion order.  (CPython dict
assignment overwrites existing keys in place, but every value stored in
`comp_index` for a key `id` is the same string `pref + id`, so
first-occurrence lookup agrees with dict lookup.) -/
def lookupIndex (idx : List (String × String)) (k : String) : Option String :=
  (idx.find? (fun kv => kv.1 = k)).map (fun kv => kv.2)

/-- Triples emitted for the components of one section of one argument
(`for p in a["premises"]: …` etc.): class membership, `hasId`,
`hasText`, and the section relation from the argument individual. -/
def componentEdges (pref a_ind cls propName : String)
    (comps : List ComponentJson) : List Triple :=
  comps.flatMap (fun c =>
    [(pref ++ c.id, "rdf:type", cls),
     (pref ++ c.id, "hasId", pref ++ c.id),
     (pref ++ c.id, "hasText", c.text),
     (a_ind, propName, pref ++ c.id)])

/-- Triples emitted for one argument of a motif. -/
def argumentEdges (pref m_ind : String) (a : ArgumentJson) : List Triple :=
  [(pref ++ a.argument_id, "rdf:type", "Argument"),
   (pref ++ a.argument_id, "hasId", pref ++ a.argument_id),
   (m_ind, "hasArgument", pref ++ a.argument_id)]
  ++ componentEdges pref (pref ++ a.argument_id) "Premise" "hasPremise"
      a.premises
  ++ componentEdges pref (pref ++ a.argument_id) "Development"
      "hasDevelopment" a.developments
  ++ componentEdges pref (pref ++ a.argument_id) "Conclusion"
      "hasConclusion" a.conclusions

/-- Triples emitted for one motif. -/
def motifEdges (pref articleNode : String) (m : MotifJson) : List Triple :=
  [(pref ++ m.motif_id, "rdf:type", "Motif"),
   (pref ++ m.motif_id, "hasId", pref ++ m.motif_id),
   (pref ++ m.motif_id, "hasText", m.text),
   (articleNode, "hasMotif", pref ++ m.motif_id)]
  ++ m.arguments.flatMap (argumentEdges pref (pref ++ m.motif_id))

/-- `comp_index` as it stands after the motif loop: each component id of
each argument of each motif maps to its individual `pref + id`. -/
def comp_index (pref : String) (motifs : List MotifJson) :
    List (String × String) :=
  motifs.flatMap (fun m => m.arguments.flatMap (fun a =>
    (a.premises ++ a.developments ++ a.conclusions).map
      (fun c => (c.id, pref ++ c.id))))

/-- Triples emitted for one quote (`for q in data["quotes"]: …`): class
(`getattr(tbox, q["type"], tbox.Quote)`), text and id, the status link
when the TBox has the status individual, `hasQuote` links for the
components it maps to, and — guarded by membership in `agent_index` —
`isAttributedTo` and `mentionsInQuote` links. -/
def quoteEdges (tboxHas : String → Bool) (pref : String)
    (compIdx agentIdx : List (String × String)) (q : QuoteJson) :
    List Triple :=
  let q_ind := pref ++ q.quote_id
  [(q_ind, "rdf:type", if tboxHas q.type then q.type else "Quote"),
   (q_ind, "hasText", q.text),
   (q_ind, "hasId", q_ind)]
  ++ (if tboxHas q.status then [(q_ind, "hasQuoteStatus", q.status)] else [])
  ++ q.maps_to_arg_components.flatMap (fun cid =>
      match lookupIndex compIdx cid with
      | some c_ind => [(c_ind, "hasQuote", q_ind)]
      | none => [])
  ++ q.attributed_to.flatMap (fun aid =>
      match lookupIndex agentIdx aid with
      | some a_ind => [(q_ind, "isAttributedTo", a_ind)]
      | none => [])
  ++ q.mentions.flatMap (fun mid =>
      match lookupIndex agentIdx mid with
      | some a_ind => [(q_ind, "mentionsInQuote", a_ind)]
      | none => [])

/-- The ABox triples built by `convert_semantic_analysis_article`.  Note
`agent_index = {}` is initialized and never populated anywhere in the
function — `data["narrated_agents"]` is never read — so the agent
lookups in the quote loop always miss. -/
def convert_semantic_analysis_article (tboxHas : String → Bool)
    (data : ArticleJson) : List Triple :=
  let pref := data.article_id ++ "_"
  let articleNode := data.article_id ++ "_article"
  let agent_index : List (String × String) := []
  [(articleNode, "rdf:type", "Article"),
   (articleNode, "hasId", articleNode),
   (articleNode, "hasHeadline", data.headline)]
  ++ data.motifs.flatMap (motifEdges pref articleNode)
  ++ data.quotes.flatMap
      (quoteEdges tboxHas pref (comp_index pref data.motifs) agent_index)

/-! ## Article IDs — `dima_otk/utils/article.py`

`get_article_id(text, length=10, sample_size=100)` hashes the UTF-8
encoding of `text[:100]` with `hashlib.sha256` and returns the first 10
characters of the hex digest.  SHA-256 is implemented below over `Nat`
bytes following FIPS 180-4 (which is what `hashlib.sha256` computes);
32-bit arithmetic is `Nat` arithmetic reduced `% 2^32`. -/

/-- Truncation to a 32-bit word. -/
def w32 (x : Nat) : Nat := x % 4294967296

/-- 32-bit right rotation. -/
def rotr (n x : Nat) : Nat := w32 ((x >>> n) ||| (x <<< (32 - n)))

/-- The 64 SHA-256 round constants (FIPS 180-4 §4.2.2, in decimal). -/
def sha256K : List Nat :=
  [1116352408, 1899447441, 3049323471, 3921009573,
   961987163, 1508970993, 2453635748, 2870763221,
   3624381080, 310598401, 607225278, 1426881987,
   1925078388, 2162078206, 2614888103, 3248222580,
   3835390401, 4022224774, 264347078, 604807628,
   770255983, 1249150122, 1555081692, 1996064986,
   2554220882, 2821834349, 2952996808, 3210313671,
   3336571891, 3584528711, 113926993, 338241895,
   666307205, 773529912, 1294757372, 1396182291,
   1695183700, 1986661051, 2177026350, 2456956037,
   2730485921, 2820302411, 3259730800, 3345764771,
   3516065817, 3600352804, 4094571909, 275423344,
   430227734, 506948616, 659060556, 883997877,
   958139571, 1322822218, 1537002063, 1747873779,
   1955562222, 2024104815, 2227730452, 2361852424,
   2428436474, 2756734187, 3204031479, 3329325298]

/-- The eight SHA-256 working variables. -/
structure H8 where
  a : Nat
  b : Nat
  c : Nat
  d : Nat
  e : Nat
  f : Nat
  g : Nat
  h : Nat
  deriving DecidableEq, Repr

/-- SHA-256 initial hash value (FIPS 180-4 §5.3.3, in decimal). -/
def sha256H0 : H8 :=
  ⟨1779033703, 3144134277, 1013904242, 2773480762,
   1359893119, 2600822924, 528734635, 1541459225⟩

/-- Big-endian byte decomposition of `x` into `n` bytes. -/
def bytesBE (n x : Nat) : List Nat :=
  (List.range n).map (fun i => (x >>> (8 * (n - 1 - i))) % 256)

/-- FIPS 180-4 padding: append `0x80`, zero bytes up to 56 mod 64, then
the bit length as 8 big-endian bytes. -/
def padMessage (msg : List Nat) : List Nat :=
  msg ++ [0x80]
      ++ List.replicate ((64 + 55 - msg.length % 64) % 64) 0
      ++ bytesBE 8 (msg.length * 8)

/-- Group bytes into big-endian 32-bit words. -/
def toWords : List Nat → List Nat
  | b0 :: b1 :: b2 :: b3 :: rest =>
      (((b0 * 256 + b1) * 256 + b2) * 256 + b3) :: toWords rest
  | _ => []

/-- Split into 64-byte chunks. -/
def chunks64 : List Nat → List (List Nat)
  | [] => []
  | b :: rest => (b :: rest).take 64 :: chunks64 (rest.drop 63)
  termination_by l => l.length
  decreasing_by simp [List.length_drop]; omega

/-- Extend the 16 message words to the 64-entry schedule. -/
def sha256schedule (w16 : List Nat) : List Nat :=
  (List.range 48).foldl (fun w _ =>
    let i := w.length
    let x15 := w.getD (i - 15) 0
    let x2 := w.getD (i - 2) 0
    let s0 := (rotr 7 x15) ^^^ (rotr 18 x15) ^^^ (x15 >>> 3)
    let s1 := (rotr 17 x2) ^^^ (rotr 19 x2) ^^^ (x2 >>> 10)
    w ++ [w32 (w.getD (i - 16) 0 + s0 + w.getD (i - 7) 0 + s1)]) w16

/-- One SHA-256 round. -/
def sha256round (k w : Nat) (s : H8) : H8 :=
  let S1 := (rotr 6 s.e) ^^^ (rotr 11 s.e) ^^^ (rotr 25 s.e)
  let ch := (s.e &&& s.f) ^^^ ((s.e ^^^ 4294967295) &&& s.g)
  let temp1 := w32 (s.h + S1 + ch + k + w)
  let S0 := (rotr 2 s.a) ^^^ (rotr 13 s.a) ^^^ (rotr 22 s.a)
  let maj := (s.a &&& s.b) ^^^ (s.a &&& s.c) ^^^ (s.b &&& s.c)
  let temp2 := w32 (S0 + maj)
  ⟨w32 (temp1 + temp2), s.a, s.b, s.c, w32 (s.d + temp1), s.e, s.f, s.g⟩

/-- Compress one 64-byte chunk into the running hash value. -/
def compressChunk (hv : H8) (chunk : List Nat) : H8 :=
  let w := sha256schedule (toWords chunk)
  let s := (List.range 64).foldl
      (fun st i => sha256round (sha256K.getD i 0) (w.getD i 0) st) hv
  ⟨w32 (hv.a + s.a), w32 (hv.b + s.b), w32 (hv.c + s.c), w32 (hv.d + s.d),
   w32 (hv.e + s.e), w32 (hv.f + s.f), w32 (hv.g + s.g), w32 (hv.h + s.h)⟩

/-- SHA-256 of a byte string, as 32 bytes. -/
def sha256 (msg : List Nat) : List Nat :=
  let hv := (chunks64 (padMessage msg)).foldl compressChunk sha256H0
  bytesBE 4 hv.a ++ bytesBE 4 hv.b ++ bytesBE 4 hv.c ++ bytesBE 4 hv.d
    ++ bytesBE 4 hv.e ++ bytesBE 4 hv.f ++ bytesBE 4 hv.g ++ bytesBE 4 hv.h

/-- Lower-case hex digit: 0–9 then a–f. -/
def hexChar (n : Nat) : Char :=
  if n < 10 then Char.ofNat (48 + n) else Char.ofNat (87 + n)

/-- `hexdigest()`: lower-case hex string of a byte list. -/
def toHexDigest (bytes : List Nat) : String :=
  String.mk (bytes.flatMap (fun b => [hexChar (b / 16), hexChar (b % 16)]))

/-- UTF-8 encoding of one scalar value. -/
def utf8EncodeChar (c : Char) : List Nat :=
  let n := c.toNat
  if n < 0x80 then [n]
  else if n < 0x800 then
    [0xC0 ||| (n >>> 6), 0x80 ||| (n &&& 0x3F)]
  else if n < 0x10000 then
    [0xE0 ||| (n >>> 12), 0x80 ||| ((n >>> 6) &&& 0x3F),
     0x80 ||| (n &&& 0x3F)]
  else
    [0xF0 ||| (n >>> 18), 0x80 ||| ((n >>> 12) &&& 0x3F),
     0x80 ||| ((n >>> 6) &&& 0x3F), 0x80 ||| (n &&& 0x3F)]

/-- `str.encode("utf-8")`. -/
def utf8Encode (s : String) : List Nat := s.data.flatMap utf8EncodeChar

/-- `get_article_id(text)` with the default `length=10`,
`sample_size=100`: hash the first 100 characters, keep the first 10 hex
digits. -/
def get_article_id (text : String) : String :=
  (toHexDigest (sha256 (utf8Encode (text.take 100)))).take 10

/-- A processed article with one narrated agent `agent_0` and one quote
whose `attributed_to` and `mentions` both name that agent. -/
def attributedArticle : ArticleJson where
  article_id := "a1"
  headline := "h"
  motifs := [⟨"motif_0", "mtext",
    [⟨"argument_0", [⟨"premise_0", "p"⟩], [], []⟩]⟩]
  narrated_agents := [⟨"agent_0"⟩]
  quotes := [⟨"quote_0", "DirectQuote", "qt", "Verified",
    ["premise_0"], ["agent_0"], ["agent_0"]⟩]

end DimaOTK

namespace DimaOTK

/-! ## Theorems for claims C1 and C10 -/

/-- C1: the claim as stated is false.  With an entry already on disk at
`("arguments_cache", "k")` holding the empty payload `{}`,
`load_or_compute_cache` *does* invoke `compute_fn` (because `if cached:`
tests truthiness, and `{}` is falsy); and invoked twice from a cold
cache with a compute returning `{}`, the compute runs on *both* calls —
the external counter would increment twice, not exactly once. -/
theorem C1_counterexample :
    (load_or_compute_cache
        (fun k => if k = ("arguments_cache", "k") then some [] else none)
        "k" "arguments_cache" (fun _ => [("a", "1")])).computeInvoked = true
    ∧
    (load_or_compute_cache
        (load_or_compute_cache (fun _ => none) "k" "arguments_cache"
            (fun _ => [])).disk
        "k" "arguments_cache" (fun _ => [])).computeInvoked = true
    ∧
    (load_or_compute_cache (fun _ => none) "k" "arguments_cache"
        (fun _ => [])).computeInvoked = true := by
  refine ⟨?_, ?_, ?_⟩ <;> rfl

/-- C1 (amended): restricted to *truthy* (non-empty) payloads the claim
holds.  (1) If an entry exists at `(category, key)` and its stored
payload is non-empty, `load_or_compute_cache` returns exactly the stored
payload, leaves the disk unchanged, and never invokes `compute_fn`.
(2) Starting from a cache with no entry at the key, two successive calls
with a compute producing a non-empty payload invoke the compute exactly
once — on the first call only — and both calls return identical
payloads. -/
theorem C1_loadOrCompute_truthy_amended
    (key ctype : String) (compute : Unit → Payload)
    (hc : payloadTruthy (compute ()) = true) :
    (∀ disk p, load_json_cache disk key ctype = some p →
        payloadTruthy p = true →
        (load_or_compute_cache disk key ctype compute).result = p ∧
        (load_or_compute_cache disk key ctype compute).disk = disk ∧
        (load_or_compute_cache disk key ctype compute).computeInvoked = false)
    ∧
    (∀ disk : CacheDisk, load_json_cache disk key ctype = none →
        (load_or_compute_cache disk key ctype compute).computeInvoked = true ∧
        (load_or_compute_cache
            (load_or_compute_cache disk key ctype compute).disk
            key ctype compute).computeInvoked = false ∧
        (load_or_compute_cache
            (load_or_compute_cache disk key ctype compute).disk
            key ctype compute).result
          = (load_or_compute_cache disk key ctype compute).result) := by
  constructor
  · intro disk p hfind htruthy
    simp [load_or_compute_cache, hfind, htruthy]
  · intro disk hnone
    have h1 : load_or_compute_cache disk key ctype compute
        = ⟨compute (), save_json_cache disk key ctype (compute ()), true⟩ := by
      simp only [load_or_compute_cache, hnone]
    have hsaved : load_json_cache
        (save_json_cache disk key ctype (compute ())) key ctype
        = some (compute ()) := by
      simp [load_json_cache, save_json_cache]
    refine ⟨by rw [h1], ?_, ?_⟩
    · rw [h1]
      simp only [load_or_compute_cache, hsaved, hc, if_true]
    · rw [h1]
      simp only [load_or_compute_cache, hsaved, hc, if_true]

/-- C1 witness: the amended theorem applied at a concrete key, cache
type, compute function and disks. -/
theorem C1_witness :
    (load_or_compute_cache
        (fun k => if k = ("arguments_cache", "key0") then
            some [("arguments", "x")] else none)
        "key0" "arguments_cache" (fun _ => [("arguments", "y")])).result
      = [("arguments", "x")]
    ∧
    (load_or_compute_cache (fun _ => none) "key0" "arguments_cache"
        (fun _ => [("arguments", "y")])).computeInvoked = true := by
  have h := C1_loadOrCompute_truthy_amended "key0" "arguments_cache"
      (fun _ => [("arguments", "y")]) (by decide)
  refine ⟨(h.1 (fun k => if k = ("arguments_cache", "key0") then
      some [("arguments", "x")] else none)
      [("arguments", "x")] (by rfl) (by decide)).1, (h.2 (fun _ => none) rfl).1⟩

/-! ## Theorems for claims C2, C3 and C8 -/

/-- Helper: removing `owl:imports` from a union, then unioning the same
fragment again and removing again, changes nothing — the content of the
store after the second merge of the same fragment equals the content
after the first. -/
theorem removeImports_union_self (g f : Graph) :
    removeImports (removeImports (g ∪ f) ∪ f) = removeImports (g ∪ f) := by
  ext t
  simp only [removeImports, Finset.mem_filter, Finset.mem_union]
  tauto

/-- Helper: behaviour of the merge continuation once the store graph has
been parsed: a fragment parse failure leaves the file system untouched
with no operations; success performs exactly one direct write to the
output file and changes no other path. -/
theorem appendParsedMain_spec (fs : FS) (frag out : String) (gm : Graph) :
    (∀ e, (append_to_rdf_file.appendParsedMain fs frag out gm).result = .error e →
        (append_to_rdf_file.appendParsedMain fs frag out gm).fs = fs ∧
        (append_to_rdf_file.appendParsedMain fs frag out gm).ops = [])
    ∧ ((append_to_rdf_file.appendParsedMain fs frag out gm).result = .ok () →
        (append_to_rdf_file.appendParsedMain fs frag out gm).ops
          = [.writeFile out] ∧
        ∀ p, p ≠ out →
          (append_to_rdf_file.appendParsedMain fs frag out gm).fs p = fs p) := by
  cases hfr : (fs frag).bind parseRdf with
  | none =>
      simp [append_to_rdf_file.appendParsedMain, hfr]
  | some g_new =>
      constructor
      · intro e he
        simp [append_to_rdf_file.appendParsedMain, hfr] at he
      · intro _
        constructor
        · simp [append_to_rdf_file.appendParsedMain, hfr]
        · intro p hp
          simp [append_to_rdf_file.appendParsedMain, hfr, hp]

/-- C2: the claim as stated is false.  rdflib graphs are *sets* of
triples, so `g_main += g_new` deduplicates: merging a fragment holding
the single ground triple `("s","p","o")` into a store twice leaves the
store with 1 triple, not the claimed `2 × 1 = 2`. -/
theorem C2_counterexample :
    (((append_to_rdf_file
        (append_to_rdf_file
          (fun p => if p = "frag.owl" then some (.rdf {("s", "p", "o")})
                    else none)
          "frag.owl" "store.owl").fs
        "frag.owl" "store.owl").fs "store.owl").bind parseRdf).map Finset.card
      = some 1
    ∧ (1 : Nat) ≠ 2 * 1 := by
  constructor
  · rfl
  · decide

/-- C2 (amended): merging the identical (ground-triple) fragment twice
in succession is *idempotent*: the store after the second merge holds
exactly the triples it held after the first, because an RDF graph is a
set of triples and the merge is a set union (followed by `owl:imports`
removal).  No doubling occurs. -/
theorem C2_merge_idempotent (fs : FS) (frag out : String) (hne : frag ≠ out)
    (f g : Graph) (hfrag : fs frag = some (.rdf f))
    (hout : fs out = some (.rdf g)) :
    (append_to_rdf_file (append_to_rdf_file fs frag out).fs frag out).fs out
      = (append_to_rdf_file fs frag out).fs out := by
  have h1 : append_to_rdf_file fs frag out
      = ⟨.ok (),
         fun p => if p = out then some (.rdf (removeImports (g ∪ f)))
                  else fs p,
         [.writeFile out]⟩ := by
    simp [append_to_rdf_file, hout, parseRdf,
          append_to_rdf_file.appendParsedMain, hfrag]
  rw [h1]
  have hfs1out : (fun p => if p = out then
      some (Content.rdf (removeImports (g ∪ f))) else fs p) out
      = some (.rdf (removeImports (g ∪ f))) := by simp
  have hfs1frag : (fun p => if p = out then
      some (Content.rdf (removeImports (g ∪ f))) else fs p) frag
      = some (.rdf f) := by simp [hne, hfrag]
  simp [append_to_rdf_file, parseRdf, append_to_rdf_file.appendParsedMain,
        hfs1frag, hne, hfrag, removeImports_union_self]

/-- C2 witness: the idempotence theorem applied to a concrete store and
fragment. -/
theorem C2_witness :
    (append_to_rdf_file
      (append_to_rdf_file
        (fun p => if p = "frag.owl" then some (.rdf {("s", "p", "o")})
                  else if p = "store.owl" then some (.rdf ∅) else none)
        "frag.owl" "store.owl").fs
      "frag.owl" "store.owl").fs "store.owl"
    = (append_to_rdf_file
        (fun p => if p = "frag.owl" then some (.rdf {("s", "p", "o")})
                  else if p = "store.owl" then some (.rdf ∅) else none)
        "frag.owl" "store.owl").fs "store.owl" :=
  C2_merge_idempotent
    (fun p => if p = "frag.owl" then some (.rdf {("s", "p", "o")})
              else if p = "store.owl" then some (.rdf ∅) else none)
    "frag.owl" "store.owl" (by decide) {("s", "p", "o")} ∅ rfl rfl

/-- C3: the claim as stated is false on its atomicity half.  A
successful merge performs exactly one operation: a *direct* write to the
store file — it never writes a temporary file and never renames.  (The
abort-before-write half of the claim does hold; see the amended
theorem.) -/
theorem C3_counterexample :
    (append_to_rdf_file
        (fun p => if p = "frag.owl" then some (.rdf {("s", "p", "o")})
                  else none)
        "frag.owl" "store.owl").result = .ok ()
    ∧ (append_to_rdf_file
        (fun p => if p = "frag.owl" then some (.rdf {("s", "p", "o")})
                  else none)
        "frag.owl" "store.owl").ops = [.writeFile "store.owl"]
    ∧ ((append_to_rdf_file
        (fun p => if p = "frag.owl" then some (.rdf {("s", "p", "o")})
                  else none)
        "frag.owl" "store.owl").ops.any FsOp.isRename) = false := by
  refine ⟨rfl, rfl, rfl⟩

/-- C3 (amended): on any merge failure (malformed existing store or
malformed/missing fragment) the merge raises before any write: the file
system is untouched and no operation is performed.  On success the merge
performs exactly one direct write to the store path (no temporary file,
no rename) and modifies no other path. -/
theorem C3_merge_abort_and_direct_write (fs : FS) (frag out : String) :
    (∀ e, (append_to_rdf_file fs frag out).result = .error e →
        (append_to_rdf_file fs frag out).fs = fs ∧
        (append_to_rdf_file fs frag out).ops = [])
    ∧ ((append_to_rdf_file fs frag out).result = .ok () →
        (append_to_rdf_file fs frag out).ops = [.writeFile out] ∧
        ((append_to_rdf_file fs frag out).ops.any FsOp.isRename) = false ∧
        ∀ p, p ≠ out → (append_to_rdf_file fs frag out).fs p = fs p) := by
  cases hso : fs out with
  | none =>
      have h := appendParsedMain_spec fs frag out ∅
      simp only [append_to_rdf_file, hso]
      exact ⟨h.1, fun hok => ⟨(h.2 hok).1, by rw [(h.2 hok).1]; rfl,
        (h.2 hok).2⟩⟩
  | some c =>
      cases hc : parseRdf c with
      | none =>
          simp [append_to_rdf_file, hso, hc]
      | some gm =>
          have h := appendParsedMain_spec fs frag out gm
          simp only [append_to_rdf_file, hso, hc]
          exact ⟨h.1, fun hok => ⟨(h.2 hok).1, by rw [(h.2 hok).1]; rfl,
            (h.2 hok).2⟩⟩

/-- C3 witness: the amended theorem applied to a run whose fragment file
is malformed — the store file and the whole file system are untouched. -/
theorem C3_witness :
    (append_to_rdf_file
        (fun p => if p = "frag.owl" then some .malformed
                  else if p = "store.owl" then some (.rdf ∅) else none)
        "frag.owl" "store.owl").fs
      = (fun p => if p = "frag.owl" then some Content.malformed
                  else if p = "store.owl" then some (.rdf ∅) else none)
    ∧ (append_to_rdf_file
        (fun p => if p = "frag.owl" then some .malformed
                  else if p = "store.owl" then some (.rdf ∅) else none)
        "frag.owl" "store.owl").ops = [] :=
  (C3_merge_abort_and_direct_write
      (fun p => if p = "frag.owl" then some .malformed
                else if p = "store.owl" then some (.rdf ∅) else none)
      "frag.owl" "store.owl").1 .parseFragmentFailed rfl

/-- C8: the claim as stated is false.  Constructing the pipeline
(`DimaOTK.__init__`) begins with `clean_flat_ontology_files()`, which
truncates both cumulative store files to empty — previously merged
content does not persist across runs.  Here a store holding one merged
triple is emptied by the clean. -/
theorem C8_counterexample :
    (clean_flat_ontology_files
        (fun p => if p = dimaFullPath then some (.rdf {("s", "p", "o")})
                  else none)) dimaFullPath = some .emptyFile
    ∧ some Content.emptyFile ≠ some (Content.rdf {("s", "p", "o")}) := by
  constructor
  · rfl
  · decide

/-- C8 (amended): within the merge operation itself only the store path
changes, but pipeline construction is a second mutator: whenever the
two ontology TTL files parse, `DimaOTK.__init__` succeeds and leaves
the DIMA store truncated to an empty file and the Influence-Mini store
overwritten with just the TBox — regardless of any previously merged
store content. -/
theorem C8_init_truncates_stores (fs : FS) (gI gD : Graph)
    (hI : fs "ontologies/influence-mini.ttl" = some (.rdf gI))
    (hD : fs "ontologies/dima-bias.ttl" = some (.rdf gD)) :
    (dimaOTK_init fs).toOption.map
        (fun fs' => (fs' dimaFullPath, fs' inflFullPath))
      = some (some .emptyFile, some (.rdf gI)) := by
  have hcI : clean_flat_ontology_files fs "ontologies/influence-mini.ttl"
      = some (.rdf gI) := hI
  have hcD : clean_flat_ontology_files fs "ontologies/dima-bias.ttl"
      = some (.rdf gD) := hD
  have n1 : ("ontologies/dima-bias.ttl" : String) ≠ inflFullPath := by decide
  have n2 : ("ontologies/dima-bias.ttl" : String) ≠ inflTboxPath := by decide
  have n3 : ("ontologies/dima-bias.ttl" : String) ≠ dimaFullPath := by decide
  have n4 : dimaFullPath ≠ dimaTboxPath := by decide
  have n5 : dimaFullPath ≠ inflFullPath := by decide
  have n6 : dimaFullPath ≠ inflTboxPath := by decide
  have n7 : inflFullPath ≠ dimaTboxPath := by decide
  simp only [dimaOTK_init, influencemini_initialize_tbox, hcI]
  simp only [dima_initialize_tbox, clean_flat_ontology_files]
  simp [hD, parseRdf, n1, n2, n3, n4, n5, n6, n7]
  refine ⟨_, rfl, ?_, ?_⟩ <;> simp [n4, n5, n6, n7]

/-- C8 witness: initializing the pipeline over a file system whose DIMA
store already holds one previously merged triple: afterwards that store
is the empty file. -/
theorem C8_witness :
    (dimaOTK_init
        (fun p => if p = "ontologies/influence-mini.ttl" then some (.rdf ∅)
          else if p = "ontologies/dima-bias.ttl" then some (.rdf ∅)
          else if p = dimaFullPath then some (.rdf {("s", "p", "o")})
          else none)).toOption.map
        (fun fs' => (fs' dimaFullPath, fs' inflFullPath))
      = some (some .emptyFile, some (.rdf ∅)) :=
  C8_init_truncates_stores
    (fun p => if p = "ontologies/influence-mini.ttl" then some (.rdf ∅)
      else if p = "ontologies/dima-bias.ttl" then some (.rdf ∅)
      else if p = dimaFullPath then some (.rdf {("s", "p", "o")})
      else none) ∅ ∅ rfl rfl

/-! ## Theorems for claims C5, C6 and C4 -/

/-- Helper: `List.find?` returns the element at the first index whose
predicate holds. -/
theorem find?_eq_get_of_first {α : Type} (p : α → Bool) (l : List α)
    (i : Nat) (hi : i < l.length) (hp : p (l.get ⟨i, hi⟩) = true)
    (hfirst : ∀ j (hj : j < l.length), j < i → p (l.get ⟨j, hj⟩) = false) :
    l.find? p = some (l.get ⟨i, hi⟩) := by
  induction l generalizing i with
  | nil => cases hi
  | cons a l ih =>
      cases i with
      | zero =>
          simp only [List.get] at hp
          simp [List.find?_cons, hp]
      | succ n =>
          have ha : p a = false :=
            hfirst 0 (by simp) (Nat.succ_pos n)
          simp only [List.get] at hp
          simp only [List.find?_cons, ha, cond_false]
          exact ih n (by simpa using hi) hp
            (fun j hj hlt => hfirst (j + 1) (by simpa using hj) (by omega))

/-- C5: first-match-wins.  If the text at index `i` of `component_map`
(iterated in insertion order) is similar to `text` and no earlier
recorded text is, then `assign_component_id` returns that entry's ID,
records no new mapping, and leaves every counter unchanged.  This holds
for every similarity function `sim`, in particular for `is_similar`
(case-insensitive `difflib` ratio ≥ 0.95). -/
theorem C5_assign_similar_first_match_wins
    (sim : String → String → Bool) (text : String)
    (cmap : List (String × String)) (pref : String) (counters : String → Nat)
    (i : Nat) (hi : i < cmap.length)
    (hsim : sim text (cmap.get ⟨i, hi⟩).1 = true)
    (hfirst : ∀ j (hj : j < cmap.length), j < i →
        sim text (cmap.get ⟨j, hj⟩).1 = false) :
    (assign_component_id sim text cmap pref counters).id
      = (cmap.get ⟨i, hi⟩).2
    ∧ (assign_component_id sim text cmap pref counters).component_map = cmap
    ∧ ∀ k, (assign_component_id sim text cmap pref counters).counters k
        = counters k := by
  have hf : cmap.find? (fun kv => sim text kv.1) = some (cmap.get ⟨i, hi⟩) :=
    find?_eq_get_of_first _ _ i hi hsim hfirst
  refine ⟨?_, ?_, fun k => ?_⟩ <;> simp [assign_component_id, hf]

/-- C5 witness: the first-match theorem at a concrete map: "Foo" is
similar (here: same length) to both "bar" (index 1) and "xyz"
(index 2); the ID of index 1 is returned and nothing is recorded. -/
theorem C5_witness :
    (assign_component_id (fun a b => a.length == b.length) "Foo"
        [("ab", "premise_0"), ("bar", "premise_1"), ("xyz", "premise_2")]
        "premise" (fun _ => 3)).id = "premise_1"
    ∧ (assign_component_id (fun a b => a.length == b.length) "Foo"
        [("ab", "premise_0"), ("bar", "premise_1"), ("xyz", "premise_2")]
        "premise" (fun _ => 3)).component_map
      = [("ab", "premise_0"), ("bar", "premise_1"), ("xyz", "premise_2")]
    ∧ (assign_component_id (fun a b => a.length == b.length) "Foo"
        [("ab", "premise_0"), ("bar", "premise_1"), ("xyz", "premise_2")]
        "premise" (fun _ => 3)).counters "premise" = 3 := by
  have h := C5_assign_similar_first_match_wins
      (fun a b => a.length == b.length) "Foo"
      [("ab", "premise_0"), ("bar", "premise_1"), ("xyz", "premise_2")]
      "premise" (fun _ => 3) 1 (by decide) (by decide)
      (by
        intro j hj hlt
        have hj0 : j = 0 := by omega
        subst hj0
        show (fun a b : String => a.length == b.length) "Foo" "ab" = false
        decide)
  exact ⟨h.1, h.2.1, h.2.2 "premise"⟩

/-- Helper for C6: submitting texts that are pairwise non-similar (and
distinct), none of which is similar or equal to a text already in the
map, mints sequential IDs `pref_c, pref_(c+1), …` from the current
counter value `c`, appends every (text, id) pair to the map in order,
advances the `pref` counter by the number of texts, and leaves every
other counter untouched. -/
theorem assign_fresh_mints_sequential (sim : String → String → Bool)
    (texts : List String) (cmap : List (String × String)) (pref : String)
    (counters : String → Nat)
    (hmap : ∀ t ∈ texts, ∀ kv ∈ cmap, sim t kv.1 = false ∧ t ≠ kv.1)
    (hpair : texts.Pairwise (fun a b => sim b a = false ∧ b ≠ a)) :
    (assign_component_ids sim texts cmap pref counters).1
      = (List.range texts.length).map
          (fun n => pref ++ "_" ++ toString (counters pref + n))
    ∧ (assign_component_ids sim texts cmap pref counters).2.1
      = cmap ++ texts.zip ((List.range texts.length).map
          (fun n => pref ++ "_" ++ toString (counters pref + n)))
    ∧ (assign_component_ids sim texts cmap pref counters).2.2 pref
      = counters pref + texts.length
    ∧ ∀ k, k ≠ pref →
        (assign_component_ids sim texts cmap pref counters).2.2 k
          = counters k := by
  induction texts generalizing cmap counters with
  | nil => simp [assign_component_ids]
  | cons t ts ih =>
      have hfind : cmap.find? (fun kv => sim t kv.1) = none := by
        rw [List.find?_eq_none]
        intro kv hkv
        simp [(hmap t (by simp) kv hkv).1]
      have hany : cmap.any (fun kv => kv.1 = t) = false := by
        rw [List.any_eq_false]
        intro kv hkv
        simp [Ne.symm (hmap t (by simp) kv hkv).2]
      have hins : dictInsert cmap t (pref ++ "_" ++ toString (counters pref))
          = cmap ++ [(t, pref ++ "_" ++ toString (counters pref))] := by
        simp [dictInsert, hany]
      have hstep : assign_component_id sim t cmap pref counters
          = ⟨pref ++ "_" ++ toString (counters pref),
             cmap ++ [(t, pref ++ "_" ++ toString (counters pref))],
             fun k => if k = pref then counters pref + 1 else counters k⟩ := by
        simp [assign_component_id, hfind, hins]
      have hmap2 : ∀ t2 ∈ ts, ∀ kv ∈
          cmap ++ [(t, pref ++ "_" ++ toString (counters pref))],
          sim t2 kv.1 = false ∧ t2 ≠ kv.1 := by
        intro t2 ht2 kv hkv
        rcases List.mem_append.mp hkv with hkv | hkv
        · exact hmap t2 (by simp [ht2]) kv hkv
        · have hkv1 : kv.1 = t := by
            simp only [List.mem_singleton] at hkv
            rw [hkv]
          rw [hkv1]
          exact (List.pairwise_cons.mp hpair).1 t2 ht2
      have hih := ih (cmap ++ [(t, pref ++ "_" ++ toString (counters pref))])
          (fun k => if k = pref then counters pref + 1 else counters k)
          hmap2 (List.pairwise_cons.mp hpair).2
      have hshift : ∀ n : Nat,
          counters pref + 1 + n = counters pref + (n + 1) := by omega
      refine ⟨?_, ?_, ?_, ?_⟩
      · simp only [assign_component_ids, hstep]
        rw [hih.1]
        simp only [List.length_cons, List.range_succ_eq_map, List.map_cons,
          List.map_map]
        simp [Function.comp, hshift, Nat.succ_eq_add_one]
      · simp only [assign_component_ids, hstep]
        rw [hih.2.1]
        simp only [List.length_cons, List.range_succ_eq_map, List.map_cons,
          List.map_map, List.zip_cons_cons, List.append_assoc,
          List.singleton_append]
        simp [Function.comp_def, hshift, Nat.succ_eq_add_one]
      · simp only [assign_component_ids, hstep]
        rw [hih.2.2.1]
        show (if pref = pref then counters pref + 1 else counters pref)
            + ts.length = counters pref + (ts.length + 1)
        rw [if_pos rfl]
        omega
      · intro k hk
        simp only [assign_component_ids, hstep]
        rw [hih.2.2.2 k hk]
        simp [hk]

/-- C6: within one article run (maps empty, every counter initialized to
0 as in `get_arguments_from_motifs`), submitting N pairwise non-similar
texts of one kind in order mints the IDs `kind_0 … kind_(N-1)` in
submission order, records each (text → id) mapping, advances the
kind-scoped counter to N, and leaves the counters of every other kind at
their initial value.  Holds for every similarity function `sim`. -/
theorem C6_fresh_texts_mint_sequential_ids (sim : String → String → Bool)
    (texts : List String) (kind : String)
    (hpair : texts.Pairwise (fun a b => sim b a = false ∧ b ≠ a)) :
    (assign_component_ids sim texts [] kind initialArgState.counters).1
      = (List.range texts.length).map (fun n => kind ++ "_" ++ toString n)
    ∧ (assign_component_ids sim texts [] kind initialArgState.counters).2.1
      = texts.zip ((List.range texts.length).map
          (fun n => kind ++ "_" ++ toString n))
    ∧ (assign_component_ids sim texts [] kind initialArgState.counters).2.2
        kind = texts.length
    ∧ ∀ k, k ≠ kind →
        (assign_component_ids sim texts [] kind initialArgState.counters).2.2 k
          = 0 := by
  have h := assign_fresh_mints_sequential sim texts [] kind
      initialArgState.counters (by simp) hpair
  simpa [initialArgState] using h

/-- C6 witness: three pairwise non-similar texts of kind "development"
get `development_0`, `development_1`, `development_2` and the counter
ends at 3; the "premise" counter is untouched. -/
theorem C6_witness :
    (assign_component_ids (fun a b => a.length == b.length)
        ["aa", "bbb", "c"] [] "development" initialArgState.counters).1
      = ["development_0", "development_1", "development_2"]
    ∧ (assign_component_ids (fun a b => a.length == b.length)
        ["aa", "bbb", "c"] [] "development" initialArgState.counters).2.2
        "development" = 3
    ∧ (assign_component_ids (fun a b => a.length == b.length)
        ["aa", "bbb", "c"] [] "development" initialArgState.counters).2.2
        "premise" = 0 := by
  have h := C6_fresh_texts_mint_sequential_ids
      (fun a b => a.length == b.length) ["aa", "bbb", "c"] "development"
      (by decide)
  exact ⟨h.1.trans (by decide), h.2.2.1, h.2.2.2 "premise" (by decide)⟩

/-- C4: the claim describes the evident intent — `extract_arguments`
catches any raised or unparsable external call and returns `[]` (second
and third conjuncts) — but the code cannot reach that handler on a cold
cache: the compute closure calls `process_arguments`, whose first line
evaluates the unbound name `motif_id`, raising a `NameError` that
propagates out of `load_or_compute_cache` and aborts the whole article
run at the very first uncached motif, whatever the external call would
have returned. -/
theorem C4_cold_cache_aborts_article (sim : String → String → Bool)
    (outcome : String → ExtractOutcome) (m : Motif) (ms : List Motif)
    (article_id : String) :
    get_arguments_from_motifs sim (fun _ => none) outcome (m :: ms)
        article_id = .error (.nameError "motif_id")
    ∧ extract_arguments .raises = []
    ∧ extract_arguments .unparsable = [] := by
  refine ⟨?_, rfl, rfl⟩
  rfl

/-- C10: the claim is false on the code and the code is the slip: the
module `dima_otk.utils.cache` imports `Optional` from `typing` but never
imports `Callable`, yet the signature of `load_or_compute_cache`
annotates `compute_fn: Callable[[], dict]`.  Executing the `def`
statement evaluates that annotation and raises
`NameError: name 'Callable' is not defined`, so the module cannot be
loaded at all. -/
theorem C10_cache_module_load_fails :
    define_load_or_compute_cache = .error (.nameError "Callable")
    ∧ resolvesInCacheModule "Callable" = false
    ∧ resolvesInCacheModule "Optional" = true := by
  refine ⟨rfl, by decide, by decide⟩

/-! ## Theorems for claim C7 -/

/-- Helper: a triple's property is its middle component. -/
theorem triple_prop_ne (s p o q : String) (h : p ≠ q) :
    ((s, p, o) : Triple).2.1 ≠ q := h

/-- Helper: no triple emitted for a component section carries an
agent-linking property. -/
theorem componentEdges_no_agent_props (pref a_ind cls propName : String)
    (hp1 : propName ≠ "isAttributedTo") (hp2 : propName ≠ "mentionsInQuote")
    (comps : List ComponentJson) :
    ∀ e ∈ componentEdges pref a_ind cls propName comps,
      e.2.1 ≠ "isAttributedTo" ∧ e.2.1 ≠ "mentionsInQuote" := by
  intro e he
  simp only [componentEdges, List.mem_flatMap] at he
  obtain ⟨c, _, hc⟩ := he
  simp only [List.mem_cons, List.not_mem_nil, or_false] at hc
  rcases hc with rfl | rfl | rfl | rfl
  · exact ⟨triple_prop_ne _ _ _ _ (by decide), triple_prop_ne _ _ _ _ (by decide)⟩
  · exact ⟨triple_prop_ne _ _ _ _ (by decide), triple_prop_ne _ _ _ _ (by decide)⟩
  · exact ⟨triple_prop_ne _ _ _ _ (by decide), triple_prop_ne _ _ _ _ (by decide)⟩
  · exact ⟨hp1, hp2⟩

/-- Helper: no triple emitted for one argument carries an agent-linking
property. -/
theorem argumentEdges_no_agent_props (pref m_ind : String)
    (a : ArgumentJson) :
    ∀ e ∈ argumentEdges pref m_ind a,
      e.2.1 ≠ "isAttributedTo" ∧ e.2.1 ≠ "mentionsInQuote" := by
  intro e he
  simp only [argumentEdges, List.mem_append, List.mem_cons,
    List.not_mem_nil, or_false] at he
  rcases he with (((rfl | rfl | rfl) | h) | h) | h
  · exact ⟨triple_prop_ne _ _ _ _ (by decide), triple_prop_ne _ _ _ _ (by decide)⟩
  · exact ⟨triple_prop_ne _ _ _ _ (by decide), triple_prop_ne _ _ _ _ (by decide)⟩
  · exact ⟨triple_prop_ne _ _ _ _ (by decide), triple_prop_ne _ _ _ _ (by decide)⟩
  · exact componentEdges_no_agent_props _ _ _ _ (by decide) (by decide) _ e h
  · exact componentEdges_no_agent_props _ _ _ _ (by decide) (by decide) _ e h
  · exact componentEdges_no_agent_props _ _ _ _ (by decide) (by decide) _ e h

/-- Helper: no triple emitted for one motif carries an agent-linking
property. -/
theorem motifEdges_no_agent_props (pref articleNode : String)
    (m : MotifJson) :
    ∀ e ∈ motifEdges pref articleNode m,
      e.2.1 ≠ "isAttributedTo" ∧ e.2.1 ≠ "mentionsInQuote" := by
  intro e he
  simp only [motifEdges, List.mem_append, List.mem_cons,
    List.not_mem_nil, or_false, List.mem_flatMap] at he
  rcases he with (rfl | rfl | rfl | rfl) | ⟨a, _, ha⟩
  · exact ⟨triple_prop_ne _ _ _ _ (by decide), triple_prop_ne _ _ _ _ (by decide)⟩
  · exact ⟨triple_prop_ne _ _ _ _ (by decide), triple_prop_ne _ _ _ _ (by decide)⟩
  · exact ⟨triple_prop_ne _ _ _ _ (by decide), triple_prop_ne _ _ _ _ (by decide)⟩
  · exact ⟨triple_prop_ne _ _ _ _ (by decide), triple_prop_ne _ _ _ _ (by decide)⟩
  · exact argumentEdges_no_agent_props _ _ a e ha

/-- Helper: with an *empty* agent index — which is what
`convert_semantic_analysis_article` always passes, since `agent_index`
is never populated — the quote loop emits no `isAttributedTo` and no
`mentionsInQuote` triple. -/
theorem quoteEdges_empty_agentIdx_no_agent_props (tboxHas : String → Bool)
    (pref : String) (compIdx : List (String × String)) (q : QuoteJson) :
    ∀ e ∈ quoteEdges tboxHas pref compIdx [] q,
      e.2.1 ≠ "isAttributedTo" ∧ e.2.1 ≠ "mentionsInQuote" := by
  intro e he
  simp only [quoteEdges, List.mem_append, List.mem_cons,
    List.not_mem_nil, or_false, List.mem_flatMap] at he
  rcases he with ((((rfl | rfl | rfl) | hst) | ⟨cid, _, hc⟩) | ⟨aid, _, ha⟩)
      | ⟨mid, _, hm⟩
  · exact ⟨triple_prop_ne _ _ _ _ (by decide), triple_prop_ne _ _ _ _ (by decide)⟩
  · exact ⟨triple_prop_ne _ _ _ _ (by decide), triple_prop_ne _ _ _ _ (by decide)⟩
  · exact ⟨triple_prop_ne _ _ _ _ (by decide), triple_prop_ne _ _ _ _ (by decide)⟩
  · by_cases hqs : tboxHas q.status
    · simp only [hqs, if_true, List.mem_cons, List.not_mem_nil,
        or_false] at hst
      subst hst
      exact ⟨triple_prop_ne _ _ _ _ (by decide), triple_prop_ne _ _ _ _ (by decide)⟩
    · simp [hqs] at hst
  · rcases hl : lookupIndex compIdx cid with _ | c_ind
    · simp [hl] at hc
    · simp only [hl, List.mem_cons, List.not_mem_nil, or_false] at hc
      subst hc
      exact ⟨triple_prop_ne _ _ _ _ (by decide), triple_prop_ne _ _ _ _ (by decide)⟩
  · simp [lookupIndex] at ha
  · simp [lookupIndex] at hm

/-- C7: the claim is false on the code and the code is the slip: the
converter initializes `agent_index = {}` and never populates it (the
`narrated_agents` of the processed article are never read), so the
membership guards `if aid in agent_index` / `if mid in agent_index`
never fire and *no* `isAttributedTo` or `mentionsInQuote` triple is ever
emitted, for any article — in particular not for an article whose quote
is attributed to an agent extracted for that article. -/
theorem C7_agent_links_never_emitted :
    (∀ (tboxHas : String → Bool) (data : ArticleJson),
      ∀ e ∈ convert_semantic_analysis_article tboxHas data,
        e.2.1 ≠ "isAttributedTo" ∧ e.2.1 ≠ "mentionsInQuote")
    ∧ ((convert_semantic_analysis_article (fun _ => true)
          attributedArticle).filter
        (fun e => e.2.1 == "isAttributedTo" || e.2.1 == "mentionsInQuote"))
      = [] := by
  constructor
  · intro tboxHas data e he
    simp only [convert_semantic_analysis_article, List.mem_append,
      List.mem_cons, List.not_mem_nil, or_false, List.mem_flatMap] at he
    rcases he with ((rfl | rfl | rfl) | ⟨m, _, hm⟩) | ⟨q, _, hq⟩
    · exact ⟨triple_prop_ne _ _ _ _ (by decide), triple_prop_ne _ _ _ _ (by decide)⟩
    · exact ⟨triple_prop_ne _ _ _ _ (by decide), triple_prop_ne _ _ _ _ (by decide)⟩
    · exact ⟨triple_prop_ne _ _ _ _ (by decide), triple_prop_ne _ _ _ _ (by decide)⟩
    · exact motifEdges_no_agent_props _ _ m e hm
    · exact quoteEdges_empty_agentIdx_no_agent_props _ _ _ q e hq
  · decide

/-! ## Theorems for claim C9 -/

/-- C9 (amended): the article ID depends only on the first 100
characters of the input text (it is the 10-hex-digit truncation of the
SHA-256 of that sample), so IDs — and hence the article-id prefixes of
node identifiers — are guaranteed distinct only for texts whose first
100 characters differ; texts that agree there always collide. -/
theorem C9_article_id_depends_on_first_100 (t1 t2 : String)
    (h : t1.take 100 = t2.take 100) :
    get_article_id t1 = get_article_id t2 := by
  simp only [get_article_id, h]

set_option maxRecDepth 10000 in
/-- C9: the claim as stated is false: these two article texts are
distinct, yet their article IDs (and hence their fragments' node-ID
prefixes) are identical, because `get_article_id` hashes only
`text[:100]` and the texts differ at character 101. -/
theorem C9_counterexample :
    get_article_id (String.mk (List.replicate 100 'a') ++ "x")
      = get_article_id (String.mk (List.replicate 100 'a') ++ "y")
    ∧ (String.mk (List.replicate 100 'a') ++ "x")
      ≠ (String.mk (List.replicate 100 'a') ++ "y") := by
  constructor
  · simp only [get_article_id]
    rw [show (String.mk (List.replicate 100 'a') ++ "x").take 100
        = (String.mk (List.replicate 100 'a') ++ "y").take 100 from by decide]
  · decide

set_option maxRecDepth 10000 in
/-- C9 witness: the dependence theorem applied at two concrete texts
agreeing on their first 100 characters. -/
theorem C9_witness :
    get_article_id (String.mk (List.replicate 100 'b') ++ "0")
      = get_article_id (String.mk (List.replicate 100 'b') ++ "1") :=
  C9_article_id_depends_on_first_100 _ _ (by decide)

/-- C7 witness: the impossibility theorem applied at the attributed
article: even its article-typing triple — like every emitted triple —
does not carry an agent-linking property. -/
theorem C7_witness :
    (("a1_article", "rdf:type", "Article") : Triple).2.1 ≠ "isAttributedTo"
    ∧ (("a1_article", "rdf:type", "Article") : Triple).2.1
        ≠ "mentionsInQuote" :=
  C7_agent_links_never_emitted.1 (fun _ => true) attributedArticle
    ("a1_article", "rdf:type", "Article") (by decide)

end DimaOTK
